import Mathlib

/-!
Verification of the core behavior of the clawbot-terminal dashboard
(`src/App.tsx`): the agent-state simulator (periodic tick), the bounded
log buffer (`addLog`), the boot sequence, and the toy command
interpreter (`handleCommand`).

The embedding is shallow: numeric agent metrics (JS floating-point
numbers) are modelled as rationals, timestamps (`Date.now()`) as
integers, and every call to `Math.random()` is an explicit parameter,
so each function is a pure function of its state and of the random
draws the original code makes.
-/

namespace Clawbot

/-- The agent status enumeration of `App.tsx` (`'active' | 'idle' | 'error' | 'offline'`). -/
inductive AgentStatus where
  | active
  | idle
  | error
  | offline
deriving DecidableEq, Repr

/-- The string the status renders as (the TS value is the string itself). -/
def AgentStatus.toStr : AgentStatus → String
  | .active => "active"
  | .idle => "idle"
  | .error => "error"
  | .offline => "offline"

/-- The `Agent` interface of `App.tsx`: cpu/memory are JS numbers
(modelled as rationals), `uptime` a non-negative integer of seconds,
`lastPing` a millisecond timestamp. -/
structure Agent where
  id : String
  name : String
  status : AgentStatus
  task : String
  cpu : ℚ
  memory : ℚ
  uptime : ℕ
  lastPing : ℤ
deriving DecidableEq, Repr

/-- The log severity enumeration (`'info' | 'success' | 'warning' | 'error' | 'system'`). -/
inductive LogType where
  | info
  | success
  | warning
  | error
  | system
deriving DecidableEq, Repr

/-- The `LogEntry` interface of `App.tsx`. The `id` field is generated from
`Date.now()` and `Math.random()` at append time; it is passed in as an
environment-supplied string. -/
structure LogEntry where
  id : String
  timestamp : ℤ
  agent : String
  type : LogType
  message : String
deriving DecidableEq, Repr

/-- `addLog` of `App.tsx`:
`setLogs(prev => [...prev.slice(-100), { id, timestamp, agent, type, message }])`.
JS `prev.slice(-100)` keeps the last 100 entries (all of them when there are
fewer), which `List.drop (length - 100)` reproduces with truncated
subtraction. The generated `id` and capture timestamp come in as
parameters `ident` and `ts`. -/
def addLog (ident : String) (ts : ℤ) (agent : String) (ty : LogType)
    (message : String) (logs : List LogEntry) : List LogEntry :=
  logs.drop (logs.length - 100) ++
    [{ id := ident, timestamp := ts, agent := agent, type := ty, message := message }]

/-- The per-agent body of the tick interval callback of `App.tsx`:
```
cpu: Math.max(0, Math.min(100, agent.cpu + (Math.random() - 0.5) * 20)),
memory: Math.max(0, Math.min(100, agent.memory + (Math.random() - 0.5) * 10)),
uptime: agent.uptime + 1,
lastPing: agent.status !== 'offline' ? Date.now() : agent.lastPing,
```
`rc` and `rm` are the two `Math.random()` draws (in `[0,1)` at run time,
unconstrained here), `now` is `Date.now()`. -/
def tickAgent (now : ℤ) (rc rm : ℚ) (a : Agent) : Agent :=
  { a with
    cpu := max 0 (min 100 (a.cpu + (rc - 1/2) * 20))
    memory := max 0 (min 100 (a.memory + (rm - 1/2) * 10))
    uptime := a.uptime + 1
    lastPing := if a.status ≠ AgentStatus.offline then now else a.lastPing }

/-- The shared mutable state of `App`: the agent roster (`agents`), the log
sequence (`logs`) and the boot flag (`bootComplete`). -/
structure State where
  agents : List Agent
  logs : List LogEntry
  bootComplete : Bool
deriving Repr

/-- One primitive state mutation performed by a callback of `App.tsx`:
an `addLog` call, a `setAgents` call that rewrites every status
(the `restart` branches), a `setLogs([])` call (the `clear` branch),
or the `setBootComplete(true)` call of the boot sequence. -/
inductive Effect where
  | log (agent : String) (ty : LogType) (message : String)
  | setAllStatus (s : AgentStatus)
  | clearLogs
  | setBootComplete
deriving DecidableEq, Repr

/-- Run one effect against the state. A `log` effect consumes the
environment-generated entry id `ident` and capture timestamp `ts`. -/
def applyEffect (ident : String) (ts : ℤ) : Effect → State → State
  | Effect.log agent ty message, st =>
      { st with logs := addLog ident ts agent ty message st.logs }
  | Effect.setAllStatus s, st =>
      { st with agents := st.agents.map fun a => { a with status := s } }
  | Effect.clearLogs, st => { st with logs := [] }
  | Effect.setBootComplete, st => { st with bootComplete := true }

/-- Run a list of effects in order. `env` supplies the generated id and
timestamp for the k-th, (k+1)-th, ... effect. -/
def applyEffectsFrom (env : ℕ → String × ℤ) : ℕ → List Effect → State → State
  | _, [], st => st
  | k, e :: es, st =>
      applyEffectsFrom env (k + 1) es (applyEffect (env k).1 (env k).2 e st)

/-- JS `String.prototype.toLowerCase()` as used by `handleCommand` on its
ASCII command keywords: lower-case every character. -/
def toLowerCase (s : String) : String := String.mk (s.data.map Char.toLower)

/-- JS `String.prototype.toUpperCase()` as used on the ASCII status strings:
upper-case every character. -/
def toUpperCase (s : String) : String := String.mk (s.data.map Char.toUpper)

/-- JS `String.prototype.trim()`: remove leading and trailing whitespace. -/
def trim (s : String) : String :=
  String.mk (((s.data.dropWhile Char.isWhitespace).reverse.dropWhile
    Char.isWhitespace).reverse)

/-- The fixed help text of the `help` branch of `handleCommand`. -/
def helpLines : List String :=
  ["Available commands:",
   "  status  - Show all agent statuses",
   "  deploy  - Deploy updates to all agents",
   "  restart - Restart all agents",
   "  scan    - Scan network for anomalies",
   "  clear   - Clear terminal output"]

/-- `handleCommand` of `App.tsx`, as the pair of (immediate effects, list of
`setTimeout`-scheduled (delay in ms, effects) batches). The branch order,
messages, delays and the `cmd.toLowerCase().trim()` dispatch mirror the
source; the staggered `status`/`ls` lines close over the roster snapshot
`agents` that the component held when the command was submitted, so their
text is computed here. -/
def handleCommand (cmd : String) (agents : List Agent) :
    List Effect × List (ℕ × List Effect) :=
  let cmdLower := trim (toLowerCase cmd)
  let echo := Effect.log "USER" LogType.info ("$ " ++ cmd)
  if cmdLower = "status" ∨ cmdLower = "ls" then
    ([echo],
     agents.enum.map fun p =>
       (p.1 * 100,
        [Effect.log "SYSTEM"
          (if p.2.status = AgentStatus.error then LogType.error else LogType.info)
          (p.2.name ++ ": " ++ toUpperCase (AgentStatus.toStr p.2.status) ++
           " | CPU: " ++ toString (round p.2.cpu) ++
           "% | MEM: " ++ toString (round p.2.memory) ++ "%")]))
  else if cmdLower = "deploy" then
    ([echo, Effect.log "SYSTEM" LogType.system "Initiating deployment sequence..."],
     [(2000, [Effect.log "SYSTEM" LogType.success
                "Deployment successful. All agents updated."])])
  else if cmdLower = "restart" then
    ([echo, Effect.log "SYSTEM" LogType.warning "Restarting all agents...",
      Effect.setAllStatus AgentStatus.idle],
     [(3000, [Effect.setAllStatus AgentStatus.active,
              Effect.log "SYSTEM" LogType.success
                "All agents restarted successfully."])])
  else if cmdLower = "scan" then
    ([echo, Effect.log "SYSTEM" LogType.system "Scanning network for anomalies..."],
     [(2500, [Effect.log "SYSTEM" LogType.success
                "Scan complete. No threats detected."])])
  else if cmdLower = "help" then
    ([echo], helpLines.enum.map fun p => (p.1 * 50, [Effect.log "SYSTEM" LogType.info p.2]))
  else if cmdLower = "clear" then
    ([echo, Effect.clearLogs], [])
  else
    ([echo, Effect.log "SYSTEM" LogType.error
        ("Unknown command: " ++ cmd ++ ". Type 'help' for available commands.")],
     [])

/-- The five boot messages of the boot-sequence `useEffect` of `App.tsx`,
with their `setTimeout` delays in milliseconds. -/
def bootMessages : List (ℕ × String) :=
  [(300, "Initializing CLAWBOT Terminal v2.0.7..."),
   (800, "Loading neural interface drivers..."),
   (1200, "Establishing quantum-encrypted connections..."),
   (1600, "Synchronizing agent mesh network..."),
   (2000, "Boot sequence complete. All systems nominal.")]

/-- Everything the boot-sequence `useEffect` schedules: one `system` log from
source "SYSTEM" per boot message at its delay, and `setBootComplete(true)`
at 2500ms. -/
def bootSchedule : List (ℕ × Effect) :=
  (bootMessages.map fun p => (p.1, Effect.log "SYSTEM" LogType.system p.2)) ++
    [(2500, Effect.setBootComplete)]

/-- The environment of one run of the tick interval callback of `App.tsx`:
every `Math.random()` draw (already multiplied and floored where the source
does so) and every `Date.now()` read it makes. `cpuRand i` and `memRand i`
are the two raw draws for the agent at index `i`; `gate` is the raw draw
compared against 0.3; `agentPick`, `typePick` and `msgPick` are the floored
random indexes; `reqId`, `latency`, `cacheBonus` and `queueDepth` are the
floored random message parameters; `logIdent` and `logTs` are the id and
timestamp of the entry a potential `addLog` call generates. -/
structure TickEnv where
  gate : ℚ
  agentPick : ℕ
  typePick : ℕ
  msgPick : ℕ
  reqId : ℕ
  latency : ℕ
  cacheBonus : ℕ
  queueDepth : ℕ
  logIdent : String
  logTs : ℤ
  now : ℤ
  cpuRand : ℕ → ℚ
  memRand : ℕ → ℚ

/-- The 5-slot weighted severity list of the tick callback
(`['info', 'info', 'info', 'success', 'warning']`). -/
def tickLogTypes : List LogType :=
  [LogType.info, LogType.info, LogType.info, LogType.success, LogType.warning]

/-- The tick callback's message pool, rebuilt each tick with fresh random
parameters. -/
def tickMessages (env : TickEnv) : List String :=
  ["Processing batch request #" ++ toString env.reqId,
   "Memory allocation optimized",
   "Task completed successfully",
   "Network latency: " ++ toString env.latency ++ "ms",
   "Cache hit ratio: " ++ toString (85 + env.cacheBonus) ++ "%",
   "Checkpoint saved",
   "Model weights synchronized",
   "Request queue depth: " ++ toString env.queueDepth]

/-- One run of the simulation interval of `App.tsx`. The `useEffect` that
owns the interval starts with `if (!bootComplete) return;`, so while the
boot flag is down no interval exists and the tick is a no-op; once booted,
the tick (a) with the random gate `> 0.3` picks the random agent and appends
one random log entry, and (b) rewrites every agent through `tickAgent` with
its own pair of random draws. -/
def runTick (env : TickEnv) (st : State) : State :=
  if st.bootComplete = false then st
  else
    let st1 :=
      if env.gate > 3/10 then
        match st.agents[env.agentPick]? with
        | some randomAgent =>
            { st with
              logs :=
                addLog env.logIdent env.logTs randomAgent.name
                  ((tickLogTypes[env.typePick]?).getD LogType.info)
                  (((tickMessages env)[env.msgPick]?).getD "") st.logs }
        | none => st
      else st
    { st1 with
      agents := st1.agents.enum.map fun p =>
        tickAgent env.now (env.cpuRand p.1) (env.memRand p.1) p.2 }

/-- A concrete agent used to instantiate theorems with hypotheses. -/
def sampleAgent : Agent :=
  { id := "agent-0", name := "NEXUS-7", status := AgentStatus.active,
    task := "Running diagnostics...", cpu := 42, memory := 17,
    uptime := 5, lastPing := 0 }

/-- A concrete booted state used to instantiate theorems with hypotheses. -/
def sampleState : State :=
  { agents := [sampleAgent], logs := [], bootComplete := true }

/-- A concrete state in which the boot sequence has not completed. -/
def unbootedState : State :=
  { agents := [sampleAgent], logs := [], bootComplete := false }

/-- A concrete id/timestamp environment for applying effects. -/
def sampleEnv : ℕ → String × ℤ := fun _ => ("log-w", 0)

/-- A concrete tick environment. -/
def sampleTickEnv : TickEnv :=
  { gate := 0, agentPick := 0, typePick := 0, msgPick := 0, reqId := 0,
    latency := 0, cacheBonus := 0, queueDepth := 0, logIdent := "log-t",
    logTs := 0, now := 0, cpuRand := fun _ => 0, memRand := fun _ => 0 }

end Clawbot

namespace Clawbot

/-- C1: after a simulation tick every agent's cpu and memory lie in `[0,100]`,
for every pre-tick value and every value of the two random draws (so in
particular for cpu deltas in `[-10,10]` and memory deltas in `[-5,5]`). -/
theorem tick_cpu_memory_clamped (now : ℤ) (rc rm : ℚ) (a : Agent) :
    0 ≤ (tickAgent now rc rm a).cpu ∧ (tickAgent now rc rm a).cpu ≤ 100 ∧
    0 ≤ (tickAgent now rc rm a).memory ∧ (tickAgent now rc rm a).memory ≤ 100 := by
  refine ⟨le_max_left _ _, ?_, le_max_left _ _, ?_⟩ <;>
    exact max_le (by norm_num) (min_le_left _ _)

/-- C7: a simulation tick increments every agent's uptime by exactly 1,
hence uptime never decreases across ticks. -/
theorem tick_uptime_increments (now : ℤ) (rc rm : ℚ) (a : Agent) :
    (tickAgent now rc rm a).uptime = a.uptime + 1 ∧
    a.uptime ≤ (tickAgent now rc rm a).uptime :=
  ⟨rfl, Nat.le_succ _⟩

/-- C10: a simulation tick leaves the `id`, `name`, `status` and `task`
fields of every agent unchanged (only cpu, memory, uptime and lastPing
are rewritten). -/
theorem tick_frame (now : ℤ) (rc rm : ℚ) (a : Agent) :
    (tickAgent now rc rm a).id = a.id ∧
    (tickAgent now rc rm a).name = a.name ∧
    (tickAgent now rc rm a).status = a.status ∧
    (tickAgent now rc rm a).task = a.task :=
  ⟨rfl, rfl, rfl, rfl⟩

/-- A concrete log entry used for counterexamples. -/
def sampleEntry : LogEntry :=
  { id := "log-0", timestamp := 0, agent := "SYSTEM", type := LogType.system,
    message := "Boot sequence complete. All systems nominal." }

/-- C2 counterexample: appending to a log that already holds 100 entries
yields 101 entries, because `addLog` slices to the last 100 entries
*before* appending; the claimed bound of 100 is exceeded. -/
theorem addLog_exceeds_100 :
    ¬ (addLog "log-1" 1 "USER" LogType.info "$ status"
        (List.replicate 100 sampleEntry)).length ≤ 100 := by
  simp [addLog]

/-- C2 (amended): after any append the log holds at most 101 entries, and
the entries kept from before the append are a suffix of the previous log
(the oldest entries are the ones evicted). -/
theorem addLog_bounded (ident : String) (ts : ℤ) (agent : String)
    (ty : LogType) (message : String) (logs : List LogEntry) :
    (addLog ident ts agent ty message logs).length ≤ 101 ∧
    addLog ident ts agent ty message logs =
      logs.drop (logs.length - 100) ++
        [{ id := ident, timestamp := ts, agent := agent, type := ty,
           message := message }] ∧
    logs.drop (logs.length - 100) <:+ logs := by
  refine ⟨?_, rfl, List.drop_suffix _ _⟩
  simp only [addLog, List.length_append, List.length_drop, List.length_singleton]
  omega

/-- Two consecutive `addLog` calls leave the two new entries as the last two
entries of the log, in call order, whatever was evicted in front of them. -/
theorem addLog_addLog (i1 i2 : String) (t1 t2 : ℤ) (a1 a2 : String)
    (ty1 ty2 : LogType) (m1 m2 : String) (logs : List LogEntry) :
    ∃ pre, addLog i2 t2 a2 ty2 m2 (addLog i1 t1 a1 ty1 m1 logs) =
      pre ++
        [{ id := i1, timestamp := t1, agent := a1, type := ty1, message := m1 },
         { id := i2, timestamp := t2, agent := a2, type := ty2, message := m2 }] := by
  refine ⟨(logs.drop (logs.length - 100)).drop
      ((addLog i1 t1 a1 ty1 m1 logs).length - 100), ?_⟩
  conv_lhs => rw [addLog, addLog]
  rw [List.drop_append_of_le_length (by
    simp only [addLog, List.length_append, List.length_drop, List.length_singleton]
    omega)]
  simp [addLog]

/-- C3: submitting `restart` synchronously emits the "warning" log and sets
every agent's status to "idle", and schedules exactly one delayed batch, at
3000ms, which sets every agent's status to "active" and emits the "success"
log. -/
theorem restart_command (cmd : String) (st st2 : State)
    (env env2 : ℕ → String × ℤ) (k k2 : ℕ)
    (h : trim (toLowerCase cmd) = "restart") :
    handleCommand cmd st.agents =
      ([Effect.log "USER" LogType.info ("$ " ++ cmd),
        Effect.log "SYSTEM" LogType.warning "Restarting all agents...",
        Effect.setAllStatus AgentStatus.idle],
       [(3000, [Effect.setAllStatus AgentStatus.active,
                Effect.log "SYSTEM" LogType.success
                  "All agents restarted successfully."])]) ∧
    (∀ a ∈ (applyEffectsFrom env k (handleCommand cmd st.agents).1 st).agents,
        a.status = AgentStatus.idle) ∧
    (∀ a ∈ (applyEffectsFrom env2 k2
          [Effect.setAllStatus AgentStatus.active,
           Effect.log "SYSTEM" LogType.success "All agents restarted successfully."]
          st2).agents,
        a.status = AgentStatus.active) := by
  have hbr : handleCommand cmd st.agents =
      ([Effect.log "USER" LogType.info ("$ " ++ cmd),
        Effect.log "SYSTEM" LogType.warning "Restarting all agents...",
        Effect.setAllStatus AgentStatus.idle],
       [(3000, [Effect.setAllStatus AgentStatus.active,
                Effect.log "SYSTEM" LogType.success
                  "All agents restarted successfully."])]) := by
    simp [handleCommand, h]
  refine ⟨hbr, ?_, ?_⟩
  · intro a ha
    rw [hbr] at ha
    simp only [applyEffectsFrom, applyEffect] at ha
    obtain ⟨x, _, rfl⟩ := List.mem_map.mp ha
    rfl
  · intro a ha
    simp only [applyEffectsFrom, applyEffect] at ha
    obtain ⟨x, _, rfl⟩ := List.mem_map.mp ha
    rfl

/-- C3 witness: the theorem instantiated at the literal command `restart`
and a concrete one-agent state. -/
theorem restart_command_witness :
    handleCommand "restart" sampleState.agents =
      ([Effect.log "USER" LogType.info ("$ " ++ "restart"),
        Effect.log "SYSTEM" LogType.warning "Restarting all agents...",
        Effect.setAllStatus AgentStatus.idle],
       [(3000, [Effect.setAllStatus AgentStatus.active,
                Effect.log "SYSTEM" LogType.success
                  "All agents restarted successfully."])]) :=
  (restart_command "restart" sampleState sampleState sampleEnv sampleEnv 0 0
    (by decide)).1

/-- C4: submitting text whose lowercased, trimmed form is none of the seven
recognized keywords produces exactly the two immediate log effects — the
"USER" info echo `$ <text>` then the "error" entry with message
`Unknown command: <text>. Type 'help' for available commands.` — schedules
nothing, and leaves those two entries as the last two log entries. -/
theorem unknown_command (cmd : String) (ags : List Agent)
    (h : trim (toLowerCase cmd) ∉
      (["status", "ls", "deploy", "restart", "scan", "help", "clear"] :
        List String)) :
    handleCommand cmd ags =
      ([Effect.log "USER" LogType.info ("$ " ++ cmd),
        Effect.log "SYSTEM" LogType.error
          ("Unknown command: " ++ cmd ++ ". Type 'help' for available commands.")],
       []) ∧
    ∀ env k st, ∃ pre,
      (applyEffectsFrom env k (handleCommand cmd st.agents).1 st).logs =
        pre ++
          [{ id := (env k).1, timestamp := (env k).2, agent := "USER",
             type := LogType.info, message := "$ " ++ cmd },
           { id := (env (k + 1)).1, timestamp := (env (k + 1)).2,
             agent := "SYSTEM", type := LogType.error,
             message :=
               "Unknown command: " ++ cmd ++
                 ". Type 'help' for available commands." }] := by
  simp only [List.mem_cons, List.not_mem_nil, or_false, not_or] at h
  obtain ⟨h1, h2, h3, h4, h5, h6, h7⟩ := h
  have hbr : ∀ l : List Agent, handleCommand cmd l =
      ([Effect.log "USER" LogType.info ("$ " ++ cmd),
        Effect.log "SYSTEM" LogType.error
          ("Unknown command: " ++ cmd ++ ". Type 'help' for available commands.")],
       []) := by
    intro l
    simp [handleCommand, h1, h2, h3, h4, h5, h6, h7]
  refine ⟨hbr ags, ?_⟩
  intro env k st
  rw [hbr st.agents]
  simp only [applyEffectsFrom, applyEffect]
  exact addLog_addLog _ _ _ _ _ _ _ _ _ _ _

/-- C4 witness: the theorem instantiated at the literal unknown command
`foobar`. -/
theorem unknown_command_witness :
    handleCommand "foobar" sampleState.agents =
      ([Effect.log "USER" LogType.info ("$ " ++ "foobar"),
        Effect.log "SYSTEM" LogType.error
          ("Unknown command: " ++ "foobar" ++
            ". Type 'help' for available commands.")],
       []) :=
  (unknown_command "foobar" sampleState.agents (by decide)).1

/-- C5: submitting `clear` produces only the echo effect followed by the
`setLogs([])` effect, schedules nothing, and running those effects leaves
the log empty — the echoed `$ clear` entry itself is wiped. -/
theorem clear_command (cmd : String) (ags : List Agent)
    (h : trim (toLowerCase cmd) = "clear") :
    handleCommand cmd ags =
      ([Effect.log "USER" LogType.info ("$ " ++ cmd), Effect.clearLogs], []) ∧
    ∀ env k st,
      (applyEffectsFrom env k (handleCommand cmd st.agents).1 st).logs = [] := by
  have hbr : ∀ l : List Agent, handleCommand cmd l =
      ([Effect.log "USER" LogType.info ("$ " ++ cmd), Effect.clearLogs], []) := by
    intro l
    simp [handleCommand, h]
  refine ⟨hbr ags, ?_⟩
  intro env k st
  rw [hbr st.agents]
  simp [applyEffectsFrom, applyEffect]

/-- C5 witness: the theorem instantiated at the literal command `clear` and
a concrete state. -/
theorem clear_command_witness :
    (applyEffectsFrom sampleEnv 0
      (handleCommand "clear" sampleState.agents).1 sampleState).logs = [] :=
  (clear_command "clear" sampleState.agents (by decide)).2 sampleEnv 0 sampleState

/-- C8: submitting `status` or `ls` immediately emits only the user echo,
and for the agent at each roster index `i` schedules one log batch at delay
`i * 100` ms whose single entry comes from "SYSTEM", reports the agent's
name, uppercased status, rounded cpu percent and rounded memory percent,
with severity "error" when that agent's status is "error" and "info"
otherwise. -/
theorem status_command (cmd : String) (ags : List Agent) (i : ℕ)
    (h : trim (toLowerCase cmd) = "status" ∨ trim (toLowerCase cmd) = "ls")
    (hi : i < ags.length) :
    (handleCommand cmd ags).1 = [Effect.log "USER" LogType.info ("$ " ++ cmd)] ∧
    (handleCommand cmd ags).2.length = ags.length ∧
    (handleCommand cmd ags).2[i]? =
      some (i * 100,
        [Effect.log "SYSTEM"
          (if ags[i].status = AgentStatus.error then LogType.error else LogType.info)
          (ags[i].name ++ ": " ++ toUpperCase (AgentStatus.toStr ags[i].status) ++
           " | CPU: " ++ toString (round ags[i].cpu) ++
           "% | MEM: " ++ toString (round ags[i].memory) ++ "%")]) := by
  have hbr : handleCommand cmd ags =
      ([Effect.log "USER" LogType.info ("$ " ++ cmd)],
       ags.enum.map fun p =>
         (p.1 * 100,
          [Effect.log "SYSTEM"
            (if p.2.status = AgentStatus.error then LogType.error else LogType.info)
            (p.2.name ++ ": " ++ toUpperCase (AgentStatus.toStr p.2.status) ++
             " | CPU: " ++ toString (round p.2.cpu) ++
             "% | MEM: " ++ toString (round p.2.memory) ++ "%")])) := by
    rcases h with h | h <;> simp [handleCommand, h]
  rw [hbr]
  refine ⟨rfl, ?_, ?_⟩
  · simp [List.enum_length]
  · simp [List.getElem?_map, List.getElem?_enum, List.getElem?_eq_getElem hi]

/-- C8 witness: the theorem instantiated at the literal command `status` and
a concrete one-agent roster, with the scheduled line fully evaluated. -/
theorem status_command_witness :
    (handleCommand "status" [sampleAgent]).2[0]? =
      some (0, [Effect.log "SYSTEM" LogType.info
        "NEXUS-7: ACTIVE | CPU: 42% | MEM: 17%"]) := by
  have h := (status_command "status" [sampleAgent] 0
    (Or.inl (by decide)) (by decide)).2.2
  rw [h]
  norm_num [sampleAgent, AgentStatus.toStr, toUpperCase]
  decide

/-- C9: `deploy` and `scan` — immediate effects and delayed completion
batches alike — only append log entries: every field of every agent in the
roster is untouched. -/
theorem deploy_scan_frame (cmd : String) (env : ℕ → String × ℤ) (k : ℕ)
    (st : State)
    (h : trim (toLowerCase cmd) = "deploy" ∨ trim (toLowerCase cmd) = "scan") :
    (applyEffectsFrom env k (handleCommand cmd st.agents).1 st).agents =
      st.agents ∧
    ∀ p ∈ (handleCommand cmd st.agents).2,
      (applyEffectsFrom env k p.2 st).agents = st.agents := by
  rcases h with h | h <;>
  · constructor
    · simp [handleCommand, h, applyEffectsFrom, applyEffect]
    · intro p hp
      simp only [handleCommand, h] at hp
      simp at hp
      subst hp
      simp [applyEffectsFrom, applyEffect]

/-- C9 witness: the theorem instantiated at the literal command `deploy` and
a concrete state. -/
theorem deploy_scan_frame_witness :
    (applyEffectsFrom sampleEnv 0
      (handleCommand "deploy" sampleState.agents).1 sampleState).agents =
      sampleState.agents :=
  (deploy_scan_frame "deploy" sampleEnv 0 sampleState (Or.inl (by decide))).1

/-- C6: the boot `useEffect` schedules exactly five "system"-severity log
entries from source "SYSTEM", at the strictly increasing delays 300, 800,
1200, 1600 and 2000 ms, and sets the boot flag at 2500 ms — 500 ms after the
last message; a simulation tick run while the flag is down leaves the state
untouched, so no tick-generated log can appear before the flag is set. -/
theorem boot_sequence (env : TickEnv) (st : State)
    (h : st.bootComplete = false) :
    bootSchedule =
      [(300, Effect.log "SYSTEM" LogType.system
          "Initializing CLAWBOT Terminal v2.0.7..."),
       (800, Effect.log "SYSTEM" LogType.system
          "Loading neural interface drivers..."),
       (1200, Effect.log "SYSTEM" LogType.system
          "Establishing quantum-encrypted connections..."),
       (1600, Effect.log "SYSTEM" LogType.system
          "Synchronizing agent mesh network..."),
       (2000, Effect.log "SYSTEM" LogType.system
          "Boot sequence complete. All systems nominal."),
       (2500, Effect.setBootComplete)] ∧
    List.Chain' (fun p q => p.1 < q.1) bootSchedule ∧
    (2500 : ℕ) = 2000 + 500 ∧
    runTick env st = st ∧
    (∀ ident ts st2,
      (applyEffect ident ts Effect.setBootComplete st2).bootComplete = true) := by
  refine ⟨rfl, ?_, rfl, ?_, fun ident ts st2 => rfl⟩
  · simp only [bootSchedule, bootMessages, List.map_cons, List.map_nil,
      List.cons_append, List.nil_append, List.chain'_cons, List.chain'_singleton,
      and_true]
    norm_num
  · simp [runTick, h]

/-- C6 witness: the theorem instantiated at a concrete tick environment and
a concrete not-yet-booted state: the tick is a no-op there. -/
theorem boot_sequence_witness : runTick sampleTickEnv unbootedState = unbootedState :=
  (boot_sequence sampleTickEnv unbootedState rfl).2.2.2.1

end Clawbot
